import Mathlib

/-!
Shallow embedding of the tideshift backend carbon engine
(src/carbon.py and the checklist/goal logic of src/app.py).

Numbers are modelled as exact rationals.  Python dict payload values are
modelled by `PyVal` (boolean or numeric); an absent key is `Option.none`.
-/

namespace Carbon

/-- The twelve activity keys of EMISSION_FACTORS in src/carbon.py. -/
inductive Activity where
  | carTravelKm
  | packagedFood
  | showerTimeMinutes
  | electronicTimeHours
  | onlineShopping
  | wasteFood
  | airConditioningHeating
  | noDriving
  | plantMealThanMeat
  | useTumbler
  | saveEnergy
  | separateRecycleWaste
deriving DecidableEq, Repr

/-- A JSON/Python payload value: either a boolean or a number. -/
inductive PyVal where
  | bool : Bool → PyVal
  | num : ℚ → PyVal
deriving DecidableEq, Repr

/-- A payload maps an activity to a present value or nothing (absent key). -/
def Payload : Type := Activity → Option PyVal

/-- EMISSION_FACTORS from src/carbon.py, in source order (kg CO2 weights). -/
def EMISSION_FACTORS : List (Activity × ℚ) :=
  [ (.carTravelKm, 21/100),
    (.packagedFood, 5/10),
    (.showerTimeMinutes, 5/100),
    (.electronicTimeHours, 6/100),
    (.onlineShopping, 1),
    (.wasteFood, 9/10),
    (.airConditioningHeating, 15/10),
    (.noDriving, -1),
    (.plantMealThanMeat, -2),
    (.useTumbler, -2/10),
    (.saveEnergy, -3/10),
    (.separateRecycleWaste, -7/10) ]

/-- One step of the accumulation loop in calculate_carbon_emissions:
the accumulator is the pair (negative_emissions, positive_reductions). -/
def emissionStep (payload : Payload) (acc : ℚ × ℚ) (af : Activity × ℚ) : ℚ × ℚ :=
  let value := (payload af.1).getD (.num 0)
  match value with
  | .bool b =>
      if b then
        if af.2 < 0 then (acc.1, acc.2 + |af.2|) else (acc.1 + af.2, acc.2)
      else acc
  | .num q => (acc.1 + q * af.2, acc.2)

/-- calculate_carbon_emissions from src/carbon.py: fold the factor table,
then return max(0, emissions_pool - reductions_pool). -/
def calculate_carbon_emissions (payload : Payload) : ℚ :=
  let pools := EMISSION_FACTORS.foldl (emissionStep payload) (0, 0)
  max 0 (pools.1 - pools.2)

/-- The signed net contribution of one payload value under a factor weight:
a boolean contributes its full weight only when true (the true reduction
route adds |factor| to the reductions pool, which is the same net effect),
a number contributes value times weight. -/
def signedContribution (v : PyVal) (f : ℚ) : ℚ :=
  match v with
  | .bool b => if b then f else 0
  | .num q => q * f

/-- classify_level from src/carbon.py. -/
def classify_level (total_emission : ℚ) : ℤ :=
  if total_emission < 2.5 then 1
  else if total_emission < 5 then 2
  else if total_emission < 8 then 3
  else if total_emission < 12 then 4
  else 5

/-- Tier metadata: level key, display label, indicator. -/
structure EmissionCategory where
  level : String
  label : String
  emoji : String
deriving DecidableEq, Repr

/-- Tier 5 metadata (also the defensive fallback). -/
def CATEGORY_5 : EmissionCategory :=
  { level := "very_high", label := "Very High (Requires attention)", emoji := "🔴" }

/-- CATEGORY_MAPPING from src/carbon.py. -/
def CATEGORY_MAPPING : List (ℤ × EmissionCategory) :=
  [ (1, { level := "very_low", label := "Very Low (Ideal)", emoji := "🌿" }),
    (2, { level := "low", label := "Low (Sustainable)", emoji := "🟢" }),
    (3, { level := "moderate", label := "Moderate (Fairly good)", emoji := "🟡" }),
    (4, { level := "high", label := "High (Needs improvement)", emoji := "🟠" }),
    (5, CATEGORY_5) ]

/-- get_emission_category from src/carbon.py: dict get with tier 5 default. -/
def get_emission_category (level : ℤ) : EmissionCategory :=
  (CATEGORY_MAPPING.lookup level).getD CATEGORY_5

/-! ## Fuzzy suggestion engine (CarbonFuzzySystem in src/carbon.py) -/

/-- A triple of rational values keyed like the normal_values dict. -/
structure Triple where
  carTravelKm : ℚ
  showerTimeMinutes : ℚ
  electronicTimeHours : ℚ
deriving DecidableEq, Repr

/-- The normal_values dict as received by fuzzy_system_analysis: each entry
may be a well formed number or malformed (`none`); reading a malformed entry
is the arithmetic fault caught by the try/except of the source. -/
structure RawNormalValues where
  carTravelKm : Option ℚ
  showerTimeMinutes : Option ℚ
  electronicTimeHours : Option ℚ
deriving DecidableEq, Repr

/-- DEFAULT_VALUES from src/carbon.py. -/
def DEFAULT_VALUES : Triple := { carTravelKm := 10, showerTimeMinutes := 12, electronicTimeHours := 8 }

/-- A minimal DailyCarbonLog record: the three continuous fields read by
calculate_normal_values, each nullable. -/
structure DailyCarbonLog where
  carTravelKm : Option ℚ
  showerTimeMinutes : Option ℚ
  electronicTimeHours : Option ℚ
deriving DecidableEq, Repr

/-- CarbonFuzzySystem.calculate_normal_values from src/carbon.py:
fewer than 3 records gives DEFAULT_VALUES, otherwise each field is the
entry at index len // 2 of the ascending sort (null values read as 0). -/
def calculate_normal_values (historical_data : List DailyCarbonLog) : Triple :=
  if historical_data.length < 3 then DEFAULT_VALUES
  else
    let car_data := (historical_data.map fun log => log.carTravelKm.getD 0).insertionSort (· ≤ ·)
    let shower_data := (historical_data.map fun log => log.showerTimeMinutes.getD 0).insertionSort (· ≤ ·)
    let electronic_data := (historical_data.map fun log => log.electronicTimeHours.getD 0).insertionSort (· ≤ ·)
    let middle := car_data.length / 2
    { carTravelKm := car_data.getD middle 0,
      showerTimeMinutes := shower_data.getD middle 0,
      electronicTimeHours := electronic_data.getD middle 0 }

/-- skfuzzy trimf with corners a ≤ b ≤ c, evaluated at one point. -/
def trimfVal (a b c x : ℚ) : ℚ :=
  if x = b then 1
  else if a < x ∧ x < b then (x - a) / (b - a)
  else if b < x ∧ x < c then (c - x) / (c - b)
  else 0

/-- The number of points of np.arange(0, m, 1), namely ⌈m⌉ for m > 0. -/
def gridSize (m : ℚ) : ℕ := ⌈m⌉.toNat

/-- skfuzzy interp_membership over the unit step grid 0, 1, ..., n-1 whose
membership values are g sampled at the grid points: zero outside the grid,
linear interpolation between neighbouring grid points inside. -/
def interpMembership (n : ℕ) (g : ℚ → ℚ) (x : ℚ) : ℚ :=
  if x < 0 ∨ ((n : ℚ) - 1) < x then 0
  else
    let i : ℕ := ⌊x⌋.toNat
    if n ≤ i + 1 then g ((n : ℚ) - 1)
    else g (i : ℚ) + (x - (i : ℚ)) * (g ((i : ℚ) + 1) - g (i : ℚ))

/-- Centroid defuzzification of the membership g sampled on the unit grid
0, ..., n-1, as the weighted average of the grid points. This models the
skfuzzy defuzz centroid call of the source; none of the theorems below
depends on the exact value it returns. -/
def defuzzCentroid (n : ℕ) (g : ℚ → ℚ) : ℚ :=
  let xs := (List.range n).map (fun j => (j : ℚ))
  (xs.map (fun x => x * g x)).sum / (xs.map g).sum

/-- Membership degree of car_km in the car_high triangle of the source. -/
def carDegree (x : ℚ) (nv : Triple) : ℚ :=
  interpMembership (gridSize (max 50 (nv.carTravelKm * 3)))
    (trimfVal (nv.carTravelKm * (8/10)) (nv.carTravelKm * (12/10)) (nv.carTravelKm * 2)) x

/-- Membership degree of shower_min in the shower_long triangle. -/
def showerDegree (x : ℚ) (nv : Triple) : ℚ :=
  interpMembership (gridSize (max 30 (nv.showerTimeMinutes * 3)))
    (trimfVal (nv.showerTimeMinutes * (8/10)) (nv.showerTimeMinutes * (12/10)) (nv.showerTimeMinutes * 2)) x

/-- Membership degree of electronic_hours in the electronic_much triangle. -/
def electronicDegree (x : ℚ) (nv : Triple) : ℚ :=
  interpMembership (gridSize (max 24 (nv.electronicTimeHours * 3)))
    (trimfVal (nv.electronicTimeHours * (8/10)) (nv.electronicTimeHours * (12/10)) (nv.electronicTimeHours * 2)) x

/-- The light suggestion set (2,5,8) of the source, defined but never
consumed by the decision rule. -/
def suggestionLight (x : ℚ) : ℚ := trimfVal 2 5 8 x

/-- Defuzzified reduction of the aggressive suggestion set (8,12,16)
scaled by the membership degree, over range_suggestion = 0..20. -/
def reductionAggressive (degree : ℚ) : ℚ :=
  defuzzCentroid 21 (fun t => trimfVal 8 12 16 t * degree)

/-- Defuzzified reduction of the moderate suggestion set (4,8,12)
scaled by the membership degree, over range_suggestion = 0..20. -/
def reductionModerate (degree : ℚ) : ℚ :=
  defuzzCentroid 21 (fun t => trimfVal 4 8 12 t * degree)

/-- The per behavior suggestion block of fuzzy_system_analysis: when the
actual x exceeds the normal b, a damped defuzzified reduction is subtracted
and floored at 0.9 b depending on the degree; otherwise x is kept; the
result is finally clamped at the normal b. m1 and m2 are the behavior
specific damping multipliers of the aggressive and moderate branches. -/
def suggestedValue (x b degree m1 m2 : ℚ) : ℚ :=
  let minLimit := b * (9/10)
  let s :=
    if b < x then
      if 6/10 < degree then max minLimit (x - reductionAggressive degree * m1)
      else if 3/10 < degree then max minLimit (x - reductionModerate degree * m2)
      else x
    else x
  min s b

/-- The dict returned by fuzzy_system_analysis. -/
structure FuzzyResult where
  suggestions : Triple
  membership_degrees : Triple
  minimum_limits : Triple
  normal_values : RawNormalValues
deriving DecidableEq, Repr

/-- The result of the try block of fuzzy_system_analysis when no arithmetic
step fails, for resolved normal values nv (raw is the dict passed through). -/
def fuzzyMain (car_km shower_min electronic_hours : ℚ) (nv : Triple)
    (raw : RawNormalValues) : FuzzyResult :=
  { suggestions :=
      { carTravelKm := suggestedValue car_km nv.carTravelKm (carDegree car_km nv) (6/10) (4/10),
        showerTimeMinutes := suggestedValue shower_min nv.showerTimeMinutes (showerDegree shower_min nv) (5/10) (3/10),
        electronicTimeHours := suggestedValue electronic_hours nv.electronicTimeHours (electronicDegree electronic_hours nv) (4/10) (25/100) },
    membership_degrees :=
      { carTravelKm := carDegree car_km nv,
        showerTimeMinutes := showerDegree shower_min nv,
        electronicTimeHours := electronicDegree electronic_hours nv },
    minimum_limits :=
      { carTravelKm := nv.carTravelKm * (9/10),
        showerTimeMinutes := nv.showerTimeMinutes * (9/10),
        electronicTimeHours := nv.electronicTimeHours * (9/10) },
    normal_values := raw }

/-- Reading the three entries of the normal_values dict: a malformed entry
raises, modelled as the error of the Except monad. -/
def resolveNormalValues (nv : RawNormalValues) : Except Unit Triple :=
  match nv.carTravelKm, nv.showerTimeMinutes, nv.electronicTimeHours with
  | some a, some b, some c => .ok { carTravelKm := a, showerTimeMinutes := b, electronicTimeHours := c }
  | _, _, _ => .error ()

/-- The whole try block: resolve the normal values then run the main path. -/
def fuzzyTryBody (car_km shower_min electronic_hours : ℚ)
    (nv : RawNormalValues) : Except Unit FuzzyResult :=
  (resolveNormalValues nv).map (fun t => fuzzyMain car_km shower_min electronic_hours t nv)

/-- The except branch of fuzzy_system_analysis: the degraded fallback. -/
def fallbackResult (car_km shower_min electronic_hours : ℚ)
    (nv : RawNormalValues) : FuzzyResult :=
  { suggestions :=
      { carTravelKm := car_km * (9/10),
        showerTimeMinutes := shower_min * (9/10),
        electronicTimeHours := electronic_hours * (9/10) },
    membership_degrees := { carTravelKm := 0, showerTimeMinutes := 0, electronicTimeHours := 0 },
    minimum_limits :=
      { carTravelKm := car_km * (8/10),
        showerTimeMinutes := shower_min * (8/10),
        electronicTimeHours := electronic_hours * (8/10) },
    normal_values := nv }

/-- CarbonFuzzySystem.fuzzy_system_analysis from src/carbon.py: run the try
block and catch any fault with the degraded fallback. -/
def fuzzy_system_analysis (car_km shower_min electronic_hours : ℚ)
    (nv : RawNormalValues) : FuzzyResult :=
  match fuzzyTryBody car_km shower_min electronic_hours nv with
  | .ok r => r
  | .error _ => fallbackResult car_km shower_min electronic_hours nv

/-! ## Improvement suggestion generator (src/carbon.py) -/

/-- The negative activities table of generate_improvement_suggestions. -/
def NEGATIVE_ACTIVITIES : List (Activity × String) :=
  [ (.packagedFood, "Avoid food packaged in plastic"),
    (.onlineShopping, "Reduce online shopping/delivery"),
    (.wasteFood, "Avoid wasting food"),
    (.airConditioningHeating, "Minimize AC/heater usage") ]

/-- The positive activities table of generate_improvement_suggestions. -/
def POSITIVE_ACTIVITIES : List (Activity × String) :=
  [ (.noDriving, "Use public transport/walk more"),
    (.plantMealThanMeat, "Increase plant-based food intake"),
    (.useTumbler, "Use a tumbler/reusable container"),
    (.saveEnergy, "Turn off unnecessary devices/lights"),
    (.separateRecycleWaste, "Sort and recycle your waste") ]

/-- generate_improvement_suggestions from src/carbon.py: a negative
activity contributes its line when the payload value is the boolean True
(Python identity test `is True`), a positive one when it is not; the two
loops append in table order. -/
def generate_improvement_suggestions (payload : Payload) : List String :=
  let negative := NEGATIVE_ACTIVITIES.filter
    (fun it => decide (payload it.1 = some (PyVal.bool true)))
  let positive := POSITIVE_ACTIVITIES.filter
    (fun it => decide (¬ payload it.1 = some (PyVal.bool true)))
  negative.map Prod.snd ++ positive.map Prod.snd

/-! ## Checklist normalization and goal decisions (submit_checklist, src/app.py) -/

/-- Python int() truncation toward zero on a rational. -/
def pyIntOfRat (q : ℚ) : ℤ := if q < 0 then -⌊-q⌋ else ⌊q⌋

/-- to_int_bool from submit_checklist: a boolean becomes 1/0, a number is
truncated with int(), an absent value (int(None) raises) falls back to 0. -/
def to_int_bool (v : Option PyVal) : ℤ :=
  match v with
  | some (.bool b) => if b then 1 else 0
  | some (.num q) => pyIntOfRat q
  | none => 0

/-- The four activity keys singled out by submit_checklist. -/
def INVERTED_KEYS : List Activity :=
  [.packagedFood, .onlineShopping, .wasteFood, .airConditioningHeating]

/-- The checklist_data entry built by submit_checklist for one key: the
payload value through to_int_bool, and for the four singled out keys the
normalization `1 if raw_val == 1 else 0`. -/
def build_checklist_value (payload : Payload) (key : Activity) : ℤ :=
  let raw_val := to_int_bool (payload key)
  if key ∈ INVERTED_KEYS then (if raw_val = 1 then 1 else 0) else raw_val

/-- The DailyGoalsLog record of src/models.py, restricted to the fields
written by submit_checklist; every goal field is nullable. -/
structure DailyGoalsLog where
  carTravelKmGoal : Option ℚ
  showerTimeMinutesGoal : Option ℚ
  electronicTimeHoursGoal : Option ℚ
  packagedFoodGoal : Option ℤ
  onlineShoppingGoal : Option ℤ
  wasteFoodGoal : Option ℤ
  airConditioningHeatingGoal : Option ℤ
  noDrivingGoal : Option ℤ
  plantMealThanMeatGoal : Option ℤ
  useTumblerGoal : Option ℤ
  saveEnergyGoal : Option ℤ
  separateRecycleWasteGoal : Option ℤ
  suggestions : Option Triple
  improvement_suggestions : Option (List String)
deriving DecidableEq, Repr

/-- should_save_numeric_goal from submit_checklist with its default
tolerance 0.1: persist only when |input - suggested| exceeds it. -/
def should_save_numeric_goal (input_val suggested_val : ℚ) : Bool :=
  decide ((1/10 : ℚ) < |input_val - suggested_val|)

/-- The disjunction of the twelve per behavior decisions of the goal
decision block of submit_checklist, in source order. -/
def goalCondition (car_km shower_min electronic_hours : ℚ)
    (fuzzy_analysis : FuzzyResult) (checklist : Activity → ℤ) : Bool :=
  should_save_numeric_goal car_km fuzzy_analysis.suggestions.carTravelKm ||
  should_save_numeric_goal shower_min fuzzy_analysis.suggestions.showerTimeMinutes ||
  should_save_numeric_goal electronic_hours fuzzy_analysis.suggestions.electronicTimeHours ||
  checklist .packagedFood == 1 || checklist .onlineShopping == 1 ||
  checklist .wasteFood == 1 || checklist .airConditioningHeating == 1 ||
  checklist .noDriving != 1 || checklist .plantMealThanMeat != 1 ||
  checklist .useTumbler != 1 || checklist .saveEnergy != 1 ||
  checklist .separateRecycleWaste != 1

/-- The DailyGoalsLog record built by submit_checklist when at least one
decision holds: each field is set exactly when its decision holds. -/
def goalRecord (car_km shower_min electronic_hours : ℚ)
    (fuzzy_analysis : FuzzyResult) (checklist : Activity → ℤ)
    (improvement_suggestions : List String) : DailyGoalsLog :=
  { carTravelKmGoal :=
      if should_save_numeric_goal car_km fuzzy_analysis.suggestions.carTravelKm then
        some fuzzy_analysis.suggestions.carTravelKm else none,
    showerTimeMinutesGoal :=
      if should_save_numeric_goal shower_min fuzzy_analysis.suggestions.showerTimeMinutes then
        some fuzzy_analysis.suggestions.showerTimeMinutes else none,
    electronicTimeHoursGoal :=
      if should_save_numeric_goal electronic_hours fuzzy_analysis.suggestions.electronicTimeHours then
        some fuzzy_analysis.suggestions.electronicTimeHours else none,
    packagedFoodGoal := if checklist .packagedFood == 1 then some 0 else none,
    onlineShoppingGoal := if checklist .onlineShopping == 1 then some 0 else none,
    wasteFoodGoal := if checklist .wasteFood == 1 then some 0 else none,
    airConditioningHeatingGoal := if checklist .airConditioningHeating == 1 then some 0 else none,
    noDrivingGoal := if checklist .noDriving != 1 then some 1 else none,
    plantMealThanMeatGoal := if checklist .plantMealThanMeat != 1 then some 1 else none,
    useTumblerGoal := if checklist .useTumbler != 1 then some 1 else none,
    saveEnergyGoal := if checklist .saveEnergy != 1 then some 1 else none,
    separateRecycleWasteGoal := if checklist .separateRecycleWaste != 1 then some 1 else none,
    suggestions :=
      if should_save_numeric_goal car_km fuzzy_analysis.suggestions.carTravelKm ||
         should_save_numeric_goal shower_min fuzzy_analysis.suggestions.showerTimeMinutes ||
         should_save_numeric_goal electronic_hours fuzzy_analysis.suggestions.electronicTimeHours then
        some fuzzy_analysis.suggestions else none,
    improvement_suggestions :=
      if improvement_suggestions.isEmpty then none else some improvement_suggestions }

/-- The goal decision block of submit_checklist: build the DailyGoalsLog
only when at least one of the twelve decisions holds, otherwise persist
nothing. -/
def decide_goals (car_km shower_min electronic_hours : ℚ) (fuzzy_analysis : FuzzyResult)
    (checklist : Activity → ℤ) (improvement_suggestions : List String) :
    Option DailyGoalsLog :=
  if goalCondition car_km shower_min electronic_hours fuzzy_analysis checklist then
    some (goalRecord car_km shower_min electronic_hours fuzzy_analysis checklist
      improvement_suggestions)
  else none

/-- The 0/1 numeric re-encoding of the boolean payload entries, as
submit_checklist produces before calling calculate_carbon_emissions. -/
def encodeBools (payload : Payload) : Payload := fun a =>
  match payload a with
  | some (.bool b) => some (.num (if b then 1 else 0))
  | v => v

/-! ## Concrete example inputs used by the witnesses -/

/-- Two history records: below the three record threshold. -/
def exampleLogs2 : List DailyCarbonLog :=
  [ { carTravelKm := some 1, showerTimeMinutes := some 1, electronicTimeHours := some 1 },
    { carTravelKm := none, showerTimeMinutes := none, electronicTimeHours := none } ]

/-- Three history records with car values 9, 4, 6. -/
def exampleLogs3 : List DailyCarbonLog :=
  [ { carTravelKm := some 9, showerTimeMinutes := some 5, electronicTimeHours := some 3 },
    { carTravelKm := some 4, showerTimeMinutes := some 20, electronicTimeHours := some 2 },
    { carTravelKm := some 6, showerTimeMinutes := some 10, electronicTimeHours := some 4 } ]

/-- A payload whose only entry is the integer 1 at packagedFood. -/
def examplePayloadPackagedInt : Payload := fun a =>
  if a = .packagedFood then some (.num 1) else none

/-- A payload whose only entry is the integer 1 at noDriving. -/
def examplePayloadNoDrivingInt : Payload := fun a =>
  if a = .noDriving then some (.num 1) else none

/-- Well formed normal values 10 / 12 / 8 as a raw dict. -/
def exampleRawNV : RawNormalValues :=
  { carTravelKm := some 10, showerTimeMinutes := some 12, electronicTimeHours := some 8 }

/-- A raw normal values dict with a malformed carTravelKm entry. -/
def exampleBadNV : RawNormalValues :=
  { carTravelKm := none, showerTimeMinutes := some 12, electronicTimeHours := some 8 }

/-- A fuzzy result with car suggestion 9.8, as in the tolerance example. -/
def exampleFuzzyResult : FuzzyResult :=
  { suggestions := { carTravelKm := 49/5, showerTimeMinutes := 12, electronicTimeHours := 8 },
    membership_degrees := { carTravelKm := 0, showerTimeMinutes := 0, electronicTimeHours := 0 },
    minimum_limits := { carTravelKm := 9, showerTimeMinutes := 54/5, electronicTimeHours := 36/5 },
    normal_values := exampleRawNV }

/-- A checklist whose twelve stored values are all 1. -/
def exampleChecklistOnes : Activity → ℤ := fun _ => 1

/-- The goal record produced from exampleFuzzyResult, exampleChecklistOnes
and actuals 10 / 12 / 8 with no improvement suggestions. -/
def exampleGoalsRecord : DailyGoalsLog :=
  { carTravelKmGoal := some (49/5), showerTimeMinutesGoal := none,
    electronicTimeHoursGoal := none,
    packagedFoodGoal := some 0, onlineShoppingGoal := some 0,
    wasteFoodGoal := some 0, airConditioningHeatingGoal := some 0,
    noDrivingGoal := none, plantMealThanMeatGoal := none,
    useTumblerGoal := none, saveEnergyGoal := none,
    separateRecycleWasteGoal := none,
    suggestions := some { carTravelKm := 49/5, showerTimeMinutes := 12, electronicTimeHours := 8 },
    improvement_suggestions := none }

/-! # Theorems -/

/-- The net pool difference accumulated by the emission fold is the sum of
the signed per activity contributions. -/
theorem emissionFold_sub (payload : Payload) (l : List (Activity × ℚ)) :
    ∀ acc : ℚ × ℚ,
      (l.foldl (emissionStep payload) acc).1 - (l.foldl (emissionStep payload) acc).2 =
        acc.1 - acc.2 +
          (l.map fun af => signedContribution ((payload af.1).getD (.num 0)) af.2).sum := by
  induction l with
  | nil => intro acc; simp
  | cons hd tl ih =>
    intro acc
    simp only [List.foldl_cons, List.map_cons, List.sum_cons]
    rw [ih]
    have hstep : (emissionStep payload acc hd).1 - (emissionStep payload acc hd).2 =
        acc.1 - acc.2 + signedContribution ((payload hd.1).getD (.num 0)) hd.2 := by
      rcases hval : (payload hd.1).getD (.num 0) with b | q
      · cases b
        · simp [emissionStep, signedContribution, hval]
        · by_cases hf : hd.2 < 0
          · simp only [emissionStep, signedContribution, hval, if_pos hf, if_pos trivial]
            rw [abs_of_neg hf]; ring
          · simp only [emissionStep, signedContribution, hval, if_neg hf, if_pos trivial]
            ring
      · simp only [emissionStep, signedContribution, hval]
        ring
    rw [hstep]; ring

/-- calculate_carbon_emissions as the clamped signed contribution sum. -/
theorem calc_eq_signedSum (payload : Payload) :
    calculate_carbon_emissions payload =
      max 0 ((EMISSION_FACTORS.map fun af =>
        signedContribution ((payload af.1).getD (.num 0)) af.2).sum) := by
  simp only [calculate_carbon_emissions]
  rw [emissionFold_sub payload EMISSION_FACTORS (0, 0)]
  norm_num

/-- C6: calculate_carbon_emissions clamps the pool difference at zero, so
its value is always nonnegative, and a checklist whose activities are all
absent or numerically zero yields exactly zero. -/
theorem c6_aggregator_nonneg_and_zero :
    (∀ p : Payload, 0 ≤ calculate_carbon_emissions p) ∧
    (∀ p : Payload, (∀ a : Activity, p a = none ∨ p a = some (PyVal.num 0)) →
      calculate_carbon_emissions p = 0) := by
  constructor
  · intro p
    rw [calc_eq_signedSum]
    exact le_max_left _ _
  · intro p hp
    rw [calc_eq_signedSum]
    have hsum : (EMISSION_FACTORS.map fun af =>
        signedContribution ((p af.1).getD (.num 0)) af.2).sum = 0 := by
      apply List.sum_eq_zero
      intro x hx
      rcases List.mem_map.1 hx with ⟨af, _, rfl⟩
      rcases hp af.1 with h | h <;> simp [h, signedContribution]
    rw [hsum]
    norm_num

/-- Witness for C6 at the empty payload. -/
theorem c6_witness :
    (∀ a : Activity, (fun _ : Activity => (none : Option PyVal)) a = none ∨
      (fun _ : Activity => (none : Option PyVal)) a = some (PyVal.num 0)) ∧
    calculate_carbon_emissions (fun _ => none) = 0 :=
  ⟨fun _ => Or.inl rfl,
   c6_aggregator_nonneg_and_zero.2 (fun _ => none) (fun _ => Or.inl rfl)⟩

/-- C10: re-encoding every boolean payload entry as the 0/1 number (as the
checklist built by submit_checklist does) leaves the computed total
unchanged: the boolean pool routing and the numeric branch agree. -/
theorem c10_pool_routing_equivalence (p : Payload) :
    calculate_carbon_emissions (encodeBools p) = calculate_carbon_emissions p := by
  rw [calc_eq_signedSum, calc_eq_signedSum]
  have hmap : (EMISSION_FACTORS.map fun af =>
      signedContribution (((encodeBools p) af.1).getD (.num 0)) af.2) =
      (EMISSION_FACTORS.map fun af =>
      signedContribution ((p af.1).getD (.num 0)) af.2) := by
    apply List.map_congr_left
    intro af _
    rcases hv : p af.1 with _ | v
    · simp [encodeBools, hv]
    · rcases v with b | q
      · cases b <;> simp [encodeBools, hv, signedContribution]
      · simp [encodeBools, hv]
  rw [hmap]

/-- C7: classify_level realises the half open thresholds 2.5 / 5 / 8 / 12,
its value always lies in 1..5 and is monotone in the emission value, and
get_emission_category falls back to the tier 5 metadata outside 1..5. -/
theorem c7_classifier_thresholds :
    (∀ v : ℚ, 1 ≤ classify_level v ∧ classify_level v ≤ 5) ∧
    (∀ v w : ℚ, v ≤ w → classify_level v ≤ classify_level w) ∧
    (∀ v : ℚ, 0 ≤ v →
      ((v < 2.5 → classify_level v = 1) ∧
       (2.5 ≤ v ∧ v < 5 → classify_level v = 2) ∧
       (5 ≤ v ∧ v < 8 → classify_level v = 3) ∧
       (8 ≤ v ∧ v < 12 → classify_level v = 4) ∧
       (12 ≤ v → classify_level v = 5))) ∧
    (∀ l : ℤ, l < 1 ∨ 5 < l → get_emission_category l = CATEGORY_5) := by
  refine ⟨?_, ?_, ?_, ?_⟩
  · intro v
    simp only [classify_level]
    split_ifs <;> norm_num
  · intro v w hvw
    simp only [classify_level]
    split_ifs <;> first | decide | (exfalso; linarith)
  · intro v _
    refine ⟨fun h => ?_, fun h => ?_, fun h => ?_, fun h => ?_, fun h => ?_⟩ <;>
      [skip; obtain ⟨h1, h2⟩ := h; obtain ⟨h1, h2⟩ := h; obtain ⟨h1, h2⟩ := h; skip] <;>
      simp only [classify_level] <;>
      split_ifs <;> first | rfl | (exfalso; linarith)
  · intro l hl
    have h1 : (l == (1 : ℤ)) = false := by simp; omega
    have h2 : (l == (2 : ℤ)) = false := by simp; omega
    have h3 : (l == (3 : ℤ)) = false := by simp; omega
    have h4 : (l == (4 : ℤ)) = false := by simp; omega
    have h5 : (l == (5 : ℤ)) = false := by simp; omega
    simp [get_emission_category, CATEGORY_MAPPING, List.lookup, h1, h2, h3, h4, h5]

/-- Witness for C7 at emission values 1, 3 and 13 and category level 7. -/
theorem c7_witness :
    ((1 ≤ classify_level 1 ∧ classify_level 1 ≤ 5) ∧
      classify_level 1 ≤ classify_level 3) ∧
    ((0 : ℚ) ≤ 13 ∧ (12 : ℚ) ≤ 13 ∧ classify_level 13 = 5) ∧
    (((7 : ℤ) < 1 ∨ 5 < (7 : ℤ)) ∧ get_emission_category 7 = CATEGORY_5) :=
  ⟨⟨c7_classifier_thresholds.1 1,
    c7_classifier_thresholds.2.1 1 3 (by norm_num)⟩,
   ⟨by norm_num, by norm_num,
    (c7_classifier_thresholds.2.2.1 13 (by norm_num)).2.2.2.2 (by norm_num)⟩,
   ⟨Or.inr (by norm_num),
    c7_classifier_thresholds.2.2.2 7 (Or.inr (by norm_num))⟩⟩

/-- C5: calculate_normal_values returns the fixed defaults 10 / 12 / 8 for
fewer than three records, and otherwise, per behavior, the entry at index
length / 2 of the ascending sort of the observed values (missing values
read as 0): uniquely characterised through any sorted permutation. -/
theorem c5_baseline_lower_median :
    (∀ h : List DailyCarbonLog, h.length < 3 →
      calculate_normal_values h = DEFAULT_VALUES) ∧
    (∀ h : List DailyCarbonLog, 3 ≤ h.length →
      ∀ sc ss se : List ℚ,
        sc.Perm (h.map fun r => r.carTravelKm.getD 0) → sc.Sorted (· ≤ ·) →
        ss.Perm (h.map fun r => r.showerTimeMinutes.getD 0) → ss.Sorted (· ≤ ·) →
        se.Perm (h.map fun r => r.electronicTimeHours.getD 0) → se.Sorted (· ≤ ·) →
        calculate_normal_values h =
          { carTravelKm := sc.getD (h.length / 2) 0,
            showerTimeMinutes := ss.getD (h.length / 2) 0,
            electronicTimeHours := se.getD (h.length / 2) 0 }) := by
  constructor
  · intro h hh
    simp only [calculate_normal_values, if_pos hh]
  · intro h hh sc ss se pc scs ps sss pe ses
    have hlen : ¬ h.length < 3 := not_lt.2 hh
    have ec : (h.map fun r => r.carTravelKm.getD 0).insertionSort (· ≤ ·) = sc :=
      List.eq_of_perm_of_sorted
        ((List.perm_insertionSort _ _).trans pc.symm)
        (List.sorted_insertionSort _ _) scs
    have es : (h.map fun r => r.showerTimeMinutes.getD 0).insertionSort (· ≤ ·) = ss :=
      List.eq_of_perm_of_sorted
        ((List.perm_insertionSort _ _).trans ps.symm)
        (List.sorted_insertionSort _ _) sss
    have ee : (h.map fun r => r.electronicTimeHours.getD 0).insertionSort (· ≤ ·) = se :=
      List.eq_of_perm_of_sorted
        ((List.perm_insertionSort _ _).trans pe.symm)
        (List.sorted_insertionSort _ _) ses
    have hsc : sc.length = h.length := by
      rw [pc.length_eq, List.length_map]
    simp only [calculate_normal_values, if_neg hlen, ec, es, ee, hsc]

/-- Witness for C5: two records give the defaults; three records with car
values 9, 4, 6 give the sorted middle entry 6 (index 1 of [4, 6, 9]). -/
theorem c5_witness :
    (exampleLogs2.length < 3 ∧ calculate_normal_values exampleLogs2 = DEFAULT_VALUES) ∧
    (3 ≤ exampleLogs3.length ∧
      calculate_normal_values exampleLogs3 =
        { carTravelKm := 6, showerTimeMinutes := 10, electronicTimeHours := 3 }) := by
  refine ⟨⟨by decide, c5_baseline_lower_median.1 exampleLogs2 (by decide)⟩,
          ⟨by decide, ?_⟩⟩
  have := c5_baseline_lower_median.2 exampleLogs3 (by decide)
    [4, 6, 9] [5, 10, 20] [2, 3, 4]
    (by decide) (by decide) (by decide) (by decide) (by decide) (by decide)
  simpa using this

/-- The per behavior suggestion never exceeds the normal value: the final
clamp takes the minimum with it. -/
theorem suggestedValue_le_base (x b d m1 m2 : ℚ) :
    suggestedValue x b d m1 m2 ≤ b := by
  simp only [suggestedValue]
  exact min_le_right _ _

/-- When today exceeds a positive normal value, the suggestion is floored
at ninety percent of it, whatever the defuzzified reduction is. -/
theorem le_suggestedValue (x b d m1 m2 : ℚ) (hb : 0 < b) (hx : b < x) :
    b * (9/10) ≤ suggestedValue x b d m1 m2 := by
  have h9 : b * (9/10) ≤ b := by nlinarith
  simp only [suggestedValue, if_pos hx]
  split_ifs with h1 h2
  · exact le_min (le_max_left _ _) h9
  · exact le_min (le_max_left _ _) h9
  · rw [min_eq_right (le_of_lt hx)]
    exact h9

/-- When today does not exceed the normal value the suggestion is exactly
the actual value. -/
theorem suggestedValue_of_le (x b d m1 m2 : ℚ) (hx : x ≤ b) :
    suggestedValue x b d m1 m2 = x := by
  simp only [suggestedValue, if_neg (not_lt.2 hx)]
  exact min_eq_left hx

/-- C2 counterexample: with baseline 10 and the valid positive actual value
1 (below the baseline), the non degraded suggestion is 1, strictly below
0.9 times the baseline — the claimed lower bound fails. -/
theorem c2_counterexample :
    (0 : ℚ) < 1 ∧ (0 : ℚ) < 10 ∧
    (fuzzy_system_analysis 1 12 8 exampleRawNV).suggestions.carTravelKm = 1 ∧
    (fuzzy_system_analysis 1 12 8 exampleRawNV).suggestions.carTravelKm < (9/10) * 10 := by
  have hres : fuzzy_system_analysis 1 12 8 exampleRawNV =
      fuzzyMain 1 12 8 DEFAULT_VALUES exampleRawNV := rfl
  have h1 : (fuzzy_system_analysis 1 12 8 exampleRawNV).suggestions.carTravelKm = 1 := by
    rw [hres]
    simp only [fuzzyMain, DEFAULT_VALUES]
    exact suggestedValue_of_le _ _ _ _ _ (by norm_num)
  refine ⟨by norm_num, by norm_num, h1, ?_⟩
  rw [h1]
  norm_num

/-- C2 amended: on the non degraded path, for positive baselines, each of
the three suggestions never exceeds its baseline, and whenever the actual
value strictly exceeds the baseline the suggestion is also floored at 0.9
times the baseline (below the baseline the suggestion equals the actual
value instead, which may be smaller than 0.9 times the baseline). -/
theorem c2_suggestion_bounds (x y z a b c : ℚ)
    (ha : 0 < a) (hb : 0 < b) (hc : 0 < c) :
    ((fuzzy_system_analysis x y z ⟨some a, some b, some c⟩).suggestions.carTravelKm ≤ a ∧
      (a < x → (9/10) * a ≤
        (fuzzy_system_analysis x y z ⟨some a, some b, some c⟩).suggestions.carTravelKm)) ∧
    ((fuzzy_system_analysis x y z ⟨some a, some b, some c⟩).suggestions.showerTimeMinutes ≤ b ∧
      (b < y → (9/10) * b ≤
        (fuzzy_system_analysis x y z ⟨some a, some b, some c⟩).suggestions.showerTimeMinutes)) ∧
    ((fuzzy_system_analysis x y z ⟨some a, some b, some c⟩).suggestions.electronicTimeHours ≤ c ∧
      (c < z → (9/10) * c ≤
        (fuzzy_system_analysis x y z ⟨some a, some b, some c⟩).suggestions.electronicTimeHours)) := by
  have hres : fuzzy_system_analysis x y z ⟨some a, some b, some c⟩ =
      fuzzyMain x y z { carTravelKm := a, showerTimeMinutes := b, electronicTimeHours := c }
        ⟨some a, some b, some c⟩ := rfl
  simp only [hres, fuzzyMain]
  refine ⟨⟨suggestedValue_le_base _ _ _ _ _, fun h => ?_⟩,
          ⟨suggestedValue_le_base _ _ _ _ _, fun h => ?_⟩,
          ⟨suggestedValue_le_base _ _ _ _ _, fun h => ?_⟩⟩
  · linarith [le_suggestedValue x a
      (carDegree x { carTravelKm := a, showerTimeMinutes := b, electronicTimeHours := c })
      (6/10) (4/10) ha h]
  · linarith [le_suggestedValue y b
      (showerDegree y { carTravelKm := a, showerTimeMinutes := b, electronicTimeHours := c })
      (5/10) (3/10) hb h]
  · linarith [le_suggestedValue z c
      (electronicDegree z { carTravelKm := a, showerTimeMinutes := b, electronicTimeHours := c })
      (4/10) (25/100) hc h]

/-- Witness for the amended C2 at actuals 20 / 15 / 9 over baselines
10 / 12 / 8. -/
theorem c2_witness :
    (0 : ℚ) < 10 ∧ (0 : ℚ) < 12 ∧ (0 : ℚ) < 8 ∧
    (((fuzzy_system_analysis 20 15 9 ⟨some 10, some 12, some 8⟩).suggestions.carTravelKm ≤ 10 ∧
      ((10 : ℚ) < 20 → (9/10) * 10 ≤
        (fuzzy_system_analysis 20 15 9 ⟨some 10, some 12, some 8⟩).suggestions.carTravelKm)) ∧
    ((fuzzy_system_analysis 20 15 9 ⟨some 10, some 12, some 8⟩).suggestions.showerTimeMinutes ≤ 12 ∧
      ((12 : ℚ) < 15 → (9/10) * 12 ≤
        (fuzzy_system_analysis 20 15 9 ⟨some 10, some 12, some 8⟩).suggestions.showerTimeMinutes)) ∧
    ((fuzzy_system_analysis 20 15 9 ⟨some 10, some 12, some 8⟩).suggestions.electronicTimeHours ≤ 8 ∧
      ((8 : ℚ) < 9 → (9/10) * 8 ≤
        (fuzzy_system_analysis 20 15 9 ⟨some 10, some 12, some 8⟩).suggestions.electronicTimeHours))) :=
  ⟨by norm_num, by norm_num, by norm_num,
   c2_suggestion_bounds 20 15 9 10 12 8 (by norm_num) (by norm_num) (by norm_num)⟩

/-- C8: on the non degraded path, whenever the actual value does not exceed
its baseline the returned suggestion equals the actual value exactly, while
the membership degree field still carries the interpolated membership. -/
theorem c8_below_baseline_identity (x y z a b c : ℚ) :
    ((x ≤ a →
      (fuzzy_system_analysis x y z ⟨some a, some b, some c⟩).suggestions.carTravelKm = x) ∧
     (y ≤ b →
      (fuzzy_system_analysis x y z ⟨some a, some b, some c⟩).suggestions.showerTimeMinutes = y) ∧
     (z ≤ c →
      (fuzzy_system_analysis x y z ⟨some a, some b, some c⟩).suggestions.electronicTimeHours = z)) ∧
    ((fuzzy_system_analysis x y z ⟨some a, some b, some c⟩).membership_degrees.carTravelKm =
        carDegree x { carTravelKm := a, showerTimeMinutes := b, electronicTimeHours := c } ∧
     (fuzzy_system_analysis x y z ⟨some a, some b, some c⟩).membership_degrees.showerTimeMinutes =
        showerDegree y { carTravelKm := a, showerTimeMinutes := b, electronicTimeHours := c } ∧
     (fuzzy_system_analysis x y z ⟨some a, some b, some c⟩).membership_degrees.electronicTimeHours =
        electronicDegree z { carTravelKm := a, showerTimeMinutes := b, electronicTimeHours := c }) := by
  have hres : fuzzy_system_analysis x y z ⟨some a, some b, some c⟩ =
      fuzzyMain x y z { carTravelKm := a, showerTimeMinutes := b, electronicTimeHours := c }
        ⟨some a, some b, some c⟩ := rfl
  simp only [hres, fuzzyMain]
  refine ⟨⟨fun h => suggestedValue_of_le _ _ _ _ _ h,
          fun h => suggestedValue_of_le _ _ _ _ _ h,
          fun h => suggestedValue_of_le _ _ _ _ _ h⟩, ?_, ?_, ?_⟩ <;> trivial

/-- Witness for C8 at actuals equal to the baselines 10 / 12 / 8; the car
membership degree is still computed (value one half on the 8/12/20
triangle) while the suggestion stays at the actual value. -/
theorem c8_witness :
    ((10 : ℚ) ≤ 10 ∧
      (fuzzy_system_analysis 10 12 8 ⟨some 10, some 12, some 8⟩).suggestions.carTravelKm = 10) ∧
    (fuzzy_system_analysis 10 12 8 ⟨some 10, some 12, some 8⟩).membership_degrees.carTravelKm
      = 1 / 2 :=
  ⟨⟨le_refl 10, (c8_below_baseline_identity 10 12 8 10 12 8).1.1 (le_refl 10)⟩, by
    have hdeg : (fuzzy_system_analysis 10 12 8 ⟨some 10, some 12, some 8⟩).membership_degrees.carTravelKm
        = carDegree 10 DEFAULT_VALUES := rfl
    rw [hdeg]
    norm_num [carDegree, DEFAULT_VALUES, gridSize, interpMembership, trimfVal]
    simp
    norm_num⟩

/-- C3: when the try block of fuzzy_system_analysis fails, the function
returns the degraded fallback for all three behaviors at once — 0.9 times
each actual as suggestion, zero membership degrees, 0.8 times each actual
as minimum limit, the normal values dict passed through unchanged — and,
being a total function, propagates no exception to the caller. -/
theorem c3_atomic_fallback (x y z : ℚ) (nv : RawNormalValues)
    (h : fuzzyTryBody x y z nv = .error ()) :
    fuzzy_system_analysis x y z nv =
      { suggestions :=
          { carTravelKm := (9/10) * x, showerTimeMinutes := (9/10) * y, electronicTimeHours := (9/10) * z },
        membership_degrees :=
          { carTravelKm := 0, showerTimeMinutes := 0, electronicTimeHours := 0 },
        minimum_limits :=
          { carTravelKm := (8/10) * x, showerTimeMinutes := (8/10) * y, electronicTimeHours := (8/10) * z },
        normal_values := nv } := by
  simp only [fuzzy_system_analysis, h, fallbackResult, FuzzyResult.mk.injEq, Triple.mk.injEq]
  refine ⟨⟨by ring, by ring, by ring⟩, trivial, ⟨by ring, by ring, by ring⟩, trivial⟩

/-- Witness for C3 at a malformed normal values dict. -/
theorem c3_witness :
    fuzzyTryBody 5 6 7 exampleBadNV = .error () ∧
    fuzzy_system_analysis 5 6 7 exampleBadNV =
      { suggestions :=
          { carTravelKm := (9/10) * 5, showerTimeMinutes := (9/10) * 6, electronicTimeHours := (9/10) * 7 },
        membership_degrees :=
          { carTravelKm := 0, showerTimeMinutes := 0, electronicTimeHours := 0 },
        minimum_limits :=
          { carTravelKm := (8/10) * 5, showerTimeMinutes := (8/10) * 6, electronicTimeHours := (8/10) * 7 },
        normal_values := exampleBadNV } :=
  ⟨rfl, c3_atomic_fallback 5 6 7 exampleBadNV rfl⟩

/-- C1 counterexample: a payload carrying the raw value 1 at packagedFood
is stored as 1 — identical to the raw value, not its inversion 0; the
normalization `1 if raw_val == 1 else 0` is the identity on 0/1, so no
polarity inversion happens at the storage point. -/
theorem c1_counterexample :
    build_checklist_value examplePayloadPackagedInt .packagedFood = 1 ∧
    to_int_bool (examplePayloadPackagedInt .packagedFood) = 1 ∧
    build_checklist_value examplePayloadPackagedInt .packagedFood =
      to_int_bool (examplePayloadPackagedInt .packagedFood) ∧
    1 - to_int_bool (examplePayloadPackagedInt .packagedFood) = 0 := by
  refine ⟨?_, ?_, ?_, ?_⟩ <;> decide

/-- C1 amended: for the four singled out activities submit_checklist stores
the raw 0/1 value unchanged (values other than 1 normalize to 0); no
polarity inversion is applied, and downstream consumers read the stored 1
directly as flagged for improvement. -/
theorem c1_normalization_identity (p : Payload) (key : Activity)
    (hk : key ∈ INVERTED_KEYS)
    (hraw : to_int_bool (p key) = 0 ∨ to_int_bool (p key) = 1) :
    build_checklist_value p key = to_int_bool (p key) := by
  rcases hraw with h | h <;> simp [build_checklist_value, hk, h]

/-- Witness for the amended C1 at the packagedFood = 1 payload. -/
theorem c1_witness :
    (Activity.packagedFood ∈ INVERTED_KEYS ∧
      (to_int_bool (examplePayloadPackagedInt .packagedFood) = 0 ∨
       to_int_bool (examplePayloadPackagedInt .packagedFood) = 1)) ∧
    build_checklist_value examplePayloadPackagedInt .packagedFood =
      to_int_bool (examplePayloadPackagedInt .packagedFood) :=
  ⟨⟨by decide, Or.inr (by decide)⟩,
   c1_normalization_identity examplePayloadPackagedInt .packagedFood
     (by decide) (Or.inr (by decide))⟩

/-- C9: generate_improvement_suggestions flags an activity only on the
boolean True (the Python `is True` identity test): with the integer 1
instead, a negative activity contributes no suggestion line, while a
positive activity still contributes its line. -/
theorem c9_strict_true_identity (p : Payload) (a : Activity) (s : String) :
    ((a, s) ∈ NEGATIVE_ACTIVITIES → p a = some (PyVal.num 1) →
      s ∉ generate_improvement_suggestions p) ∧
    ((a, s) ∈ POSITIVE_ACTIVITIES → p a = some (PyVal.num 1) →
      s ∈ generate_improvement_suggestions p) := by
  constructor
  · intro hmem hp
    simp only [NEGATIVE_ACTIVITIES, List.mem_cons, List.not_mem_nil, or_false,
      Prod.mk.injEq] at hmem
    rcases hmem with ⟨rfl, rfl⟩ | ⟨rfl, rfl⟩ | ⟨rfl, rfl⟩ | ⟨rfl, rfl⟩ <;>
      simp [generate_improvement_suggestions, NEGATIVE_ACTIVITIES,
        POSITIVE_ACTIVITIES, List.mem_append, List.mem_map, List.mem_filter, hp]
  · intro hmem hp
    simp only [POSITIVE_ACTIVITIES, List.mem_cons, List.not_mem_nil, or_false,
      Prod.mk.injEq] at hmem
    rcases hmem with ⟨rfl, rfl⟩ | ⟨rfl, rfl⟩ | ⟨rfl, rfl⟩ | ⟨rfl, rfl⟩ | ⟨rfl, rfl⟩ <;>
      simp [generate_improvement_suggestions, NEGATIVE_ACTIVITIES,
        POSITIVE_ACTIVITIES, List.mem_append, List.mem_map, List.mem_filter, hp]

/-- Witness for C9 at payloads with the integer 1 at packagedFood and at
noDriving respectively. -/
theorem c9_witness :
    ((Activity.packagedFood, "Avoid food packaged in plastic") ∈ NEGATIVE_ACTIVITIES ∧
      examplePayloadPackagedInt .packagedFood = some (PyVal.num 1) ∧
      "Avoid food packaged in plastic" ∉
        generate_improvement_suggestions examplePayloadPackagedInt) ∧
    ((Activity.noDriving, "Use public transport/walk more") ∈ POSITIVE_ACTIVITIES ∧
      examplePayloadNoDrivingInt .noDriving = some (PyVal.num 1) ∧
      "Use public transport/walk more" ∈
        generate_improvement_suggestions examplePayloadNoDrivingInt) :=
  ⟨⟨by decide, rfl,
    (c9_strict_true_identity examplePayloadPackagedInt .packagedFood
      "Avoid food packaged in plastic").1 (by decide) rfl⟩,
   ⟨by decide, rfl,
    (c9_strict_true_identity examplePayloadNoDrivingInt .noDriving
      "Use public transport/walk more").2 (by decide) rfl⟩⟩

/-- An option valued if with a Bool condition is some exactly when the
condition is true. -/
theorem ite_some_eq_some_iff {α : Type} (c : Bool) (v : α) :
    ((if c = true then some v else none) = some v) ↔ c = true := by
  cases c <;> simp

/-- An option valued if with a Bool condition is none exactly when the
condition is false. -/
theorem ite_some_eq_none_iff {α : Type} (c : Bool) (v : α) :
    ((if c = true then some v else none) = none) ↔ c = false := by
  cases c <;> simp

/-- C4: a DailyGoalsLog record is created exactly when at least one of the
twelve per behavior decisions holds; a numeric goal field of the created
record is the fuzzy suggestion exactly when the actual differs from the
suggestion by more than the 0.1 tolerance, and null otherwise; and the
created record never has all twelve goal fields null. -/
theorem c4_goal_decision (car_km shower_min electronic_hours : ℚ)
    (fa : FuzzyResult) (checklist : Activity → ℤ) (imps : List String) :
    ((decide_goals car_km shower_min electronic_hours fa checklist imps).isSome = true ↔
      ((1/10 : ℚ) < |car_km - fa.suggestions.carTravelKm| ∨
       (1/10 : ℚ) < |shower_min - fa.suggestions.showerTimeMinutes| ∨
       (1/10 : ℚ) < |electronic_hours - fa.suggestions.electronicTimeHours| ∨
       checklist .packagedFood = 1 ∨ checklist .onlineShopping = 1 ∨
       checklist .wasteFood = 1 ∨ checklist .airConditioningHeating = 1 ∨
       checklist .noDriving ≠ 1 ∨ checklist .plantMealThanMeat ≠ 1 ∨
       checklist .useTumbler ≠ 1 ∨ checklist .saveEnergy ≠ 1 ∨
       checklist .separateRecycleWaste ≠ 1)) ∧
    (∀ g, decide_goals car_km shower_min electronic_hours fa checklist imps = some g →
      ((g.carTravelKmGoal = some fa.suggestions.carTravelKm ↔
          (1/10 : ℚ) < |car_km - fa.suggestions.carTravelKm|) ∧
       (g.carTravelKmGoal = none ↔
          ¬ (1/10 : ℚ) < |car_km - fa.suggestions.carTravelKm|) ∧
       (g.showerTimeMinutesGoal = some fa.suggestions.showerTimeMinutes ↔
          (1/10 : ℚ) < |shower_min - fa.suggestions.showerTimeMinutes|) ∧
       (g.showerTimeMinutesGoal = none ↔
          ¬ (1/10 : ℚ) < |shower_min - fa.suggestions.showerTimeMinutes|) ∧
       (g.electronicTimeHoursGoal = some fa.suggestions.electronicTimeHours ↔
          (1/10 : ℚ) < |electronic_hours - fa.suggestions.electronicTimeHours|) ∧
       (g.electronicTimeHoursGoal = none ↔
          ¬ (1/10 : ℚ) < |electronic_hours - fa.suggestions.electronicTimeHours|))) ∧
    (∀ g, decide_goals car_km shower_min electronic_hours fa checklist imps = some g →
      ¬ (g.carTravelKmGoal = none ∧ g.showerTimeMinutesGoal = none ∧
         g.electronicTimeHoursGoal = none ∧ g.packagedFoodGoal = none ∧
         g.onlineShoppingGoal = none ∧ g.wasteFoodGoal = none ∧
         g.airConditioningHeatingGoal = none ∧ g.noDrivingGoal = none ∧
         g.plantMealThanMeatGoal = none ∧ g.useTumblerGoal = none ∧
         g.saveEnergyGoal = none ∧ g.separateRecycleWasteGoal = none)) := by
  refine ⟨?_, ?_, ?_⟩
  · simp only [decide_goals]
    split_ifs with hc
    · simp only [Option.isSome_some, true_iff]
      simp only [goalCondition, Bool.or_eq_true, should_save_numeric_goal,
        decide_eq_true_eq, beq_iff_eq, bne_iff_ne, or_assoc] at hc
      exact hc
    · simp only [Option.isSome_none, Bool.false_eq_true, false_iff, not_or]
      simp only [goalCondition, Bool.or_eq_true, should_save_numeric_goal,
        decide_eq_true_eq, beq_iff_eq, bne_iff_ne, not_or, and_assoc] at hc
      exact hc
  · intro g hg
    simp only [decide_goals] at hg
    split_ifs at hg with hc
    · injection hg with hg
      subst hg
      simp only [goalRecord]
      refine ⟨?_, ?_, ?_, ?_, ?_, ?_⟩
      · rw [ite_some_eq_some_iff]
        simp only [should_save_numeric_goal, decide_eq_true_eq]
      · rw [ite_some_eq_none_iff]
        simp only [should_save_numeric_goal, decide_eq_false_iff_not]
      · rw [ite_some_eq_some_iff]
        simp only [should_save_numeric_goal, decide_eq_true_eq]
      · rw [ite_some_eq_none_iff]
        simp only [should_save_numeric_goal, decide_eq_false_iff_not]
      · rw [ite_some_eq_some_iff]
        simp only [should_save_numeric_goal, decide_eq_true_eq]
      · rw [ite_some_eq_none_iff]
        simp only [should_save_numeric_goal, decide_eq_false_iff_not]
  · intro g hg hall
    simp only [decide_goals] at hg
    split_ifs at hg with hc
    · injection hg with hg
      subst hg
      simp only [goalRecord] at hall
      obtain ⟨e1, e2, e3, e4, e5, e6, e7, e8, e9, e10, e11, e12⟩ := hall
      rw [ite_some_eq_none_iff] at e1 e2 e3 e4 e5 e6 e7 e8 e9 e10 e11 e12
      simp only [goalCondition, e1, e2, e3, e4, e5, e6, e7, e8, e9, e10, e11, e12,
        Bool.or_self, Bool.or_false, Bool.false_eq_true] at hc

/-- Witness for C4: actual 10 against suggestion 9.8 exceeds the tolerance
and persists the numeric goal 9.8; actual 10 against suggestion 10.05 is
within the tolerance; actual 12 against suggestion 12 persists nothing for
the shower behavior. -/
theorem c4_witness :
    ((1/10 : ℚ) < |10 - (49/5 : ℚ)|) ∧
    ¬ ((1/10 : ℚ) < |10 - (201/20 : ℚ)|) ∧
    (decide_goals 10 12 8 exampleFuzzyResult exampleChecklistOnes []).isSome = true ∧
    decide_goals 10 12 8 exampleFuzzyResult exampleChecklistOnes [] = some exampleGoalsRecord ∧
    exampleGoalsRecord.carTravelKmGoal = some (49/5) ∧
    exampleGoalsRecord.showerTimeMinutesGoal = none := by
  have hdg : decide_goals 10 12 8 exampleFuzzyResult exampleChecklistOnes [] =
      some exampleGoalsRecord := by
    norm_num [decide_goals, goalCondition, goalRecord, should_save_numeric_goal,
      exampleFuzzyResult, exampleChecklistOnes, exampleGoalsRecord, abs_of_pos, abs_of_neg]
  have h2 := (c4_goal_decision 10 12 8 exampleFuzzyResult exampleChecklistOnes []).2.1
    exampleGoalsRecord hdg
  refine ⟨by norm_num [abs_of_pos], by norm_num [abs_of_pos, abs_of_neg],
    (c4_goal_decision 10 12 8 exampleFuzzyResult exampleChecklistOnes []).1.mpr
      (Or.inl (by norm_num [exampleFuzzyResult, abs_of_pos])),
    hdg, h2.1.mpr (by norm_num [exampleFuzzyResult, abs_of_pos]),
    h2.2.2.2.1.mpr (by norm_num [exampleFuzzyResult])⟩

end Carbon
